import Mathlib

set_option maxRecDepth 100000
set_option maxHeartbeats 1000000

/-!
Verification development for the ai-content-generator web application.

The application is a Next.js service.  Its logic-bearing parts are embedded
below as pure Lean functions:

* `src/app/lib/auth.ts`           — password hashing wrappers, session lifecycle;
* `src/app/lib/templates.ts`      — the fixed template catalog and lookups;
* the generate route (`POST /api/generate`, source in the repository readme
  bundle) — quota gate, prompt resolution, provider call, title derivation,
  persistence;
* `src/app/api/history/route.ts`  — history listing and deletion;
* the logout route (`POST /api/auth/logout`).

Database tables are modelled as Lean lists of rows; Prisma query helpers
(`findUnique`, `findMany`, `deleteMany`, `create`, `update`) become the
corresponding pure list operations.  Timestamps are naturals counting
milliseconds (the JavaScript `Date.now()` clock).  HTTP responses are
modelled by their status code plus the state they leave behind; response
body texts are not modelled.  JavaScript string truthiness (absent or
empty string are both falsy) is modelled by using `""` for an absent
optional string field.
-/

/-! ## Data model (prisma/migrations/20251115202527_init/migration.sql) -/

/-- A bcrypt digest, modelled abstractly: the digest of a password under a
salt is an opaque value that determines (salt, password) — bcrypt collisions
are not modelled.  `bcryptjs` itself is an external library; only the shape
needed by `hashPassword` and `verifyPassword` in `src/app/lib/auth.ts` is
kept. -/
structure BcryptDigest where
  salt : Nat
  pw : String
deriving DecidableEq

/-- Row of the `User` table. -/
structure UserRow where
  id : String
  email : String
  password : BcryptDigest
  attemptUsed : Bool
deriving DecidableEq

/-- Row of the `Session` table. -/
structure SessRow where
  id : String
  userId : String
  token : String
  expiresAt : Nat
  createdAt : Nat
deriving DecidableEq

/-- Row of the `GeneratedContent` table. -/
structure ContentRow where
  id : String
  title : String
  content : String
  contentType : String
  template : String
  prompt : String
  userId : String
  createdAt : Nat
deriving DecidableEq

/-! ## src/app/lib/auth.ts -/

/-- `SESSION_DURATION = 7 * 24 * 60 * 60 * 1000` (7 days in milliseconds). -/
def SESSION_DURATION : Nat := 7 * 24 * 60 * 60 * 1000

/-- `hashPassword(password)`: `bcrypt.hash(password, SALT_ROUNDS)`.  The salt
drawn by bcrypt is passed explicitly. -/
def hashPassword (salt : Nat) (password : String) : BcryptDigest :=
  ⟨salt, password⟩

/-- `verifyPassword(password, hashedPassword)`: `bcrypt.compare` re-applies
the hash primitive with the salt stored in the digest and compares. -/
def verifyPassword (password : String) (hashedPassword : BcryptDigest) : Bool :=
  hashPassword hashedPassword.salt password = hashedPassword

/-- `createSession(userId)`: stores a session expiring at `now + SESSION_DURATION`
and returns the token.  The random token produced by `generateRandomToken` and
the cuid row id are passed explicitly; `prisma.session.create` inserts the row. -/
def createSession (now : Nat) (userId token sid : String) (db : List SessRow) :
    String × List SessRow :=
  let expiresAt := now + SESSION_DURATION
  (token, ⟨sid, userId, token, expiresAt, now⟩ :: db)

/-- `getSessionUser(token)`: `findUnique` on the token; absent, or expired
(`session.expiresAt < new Date()`), yields `null` — an expired row is deleted
first.  Otherwise the included `session.user` relation row is returned.
Returns the resolved user together with the session table left behind. -/
def getSessionUser (now : Nat) (token : String) (db : List SessRow)
    (users : List UserRow) : Option UserRow × List SessRow :=
  match db.find? (fun s => s.token == token) with
  | none => (none, db)
  | some s =>
    if s.expiresAt < now then
      (none, db.filter (fun x => ¬ x.id = s.id))
    else
      (users.find? (fun u => u.id == s.userId), db)

/-- `deleteSession(token)`: `deleteMany` of all sessions carrying the token. -/
def deleteSession (token : String) (db : List SessRow) : List SessRow :=
  db.filter (fun s => ¬ s.token = token)

/-! ## src/app/lib/templates.ts

Only the fields the server logic reads (`id`, `name`, `contentType`,
`prompt`, `placeholders`) are kept; `description` and `icon` are
display-only. -/

/-- A prompt template from the fixed catalog. -/
structure Template where
  id : String
  name : String
  contentType : String
  prompt : String
  placeholders : List String
deriving DecidableEq

/-- The template catalog, verbatim from `src/app/lib/templates.ts`. -/
def templates : List Template := [
  { id := "blog-how-to", name := "How-To Guide", contentType := "blog",
    prompt := "Write a comprehensive how-to guide about {topic}. Include an engaging introduction, clear step-by-step instructions, helpful tips, and a conclusion. Make it informative and easy to follow.",
    placeholders := ["topic"] },
  { id := "blog-listicle", name := "Listicle", contentType := "blog",
    prompt := "Write an engaging listicle titled \"{title}\". Create {number} well-detailed points with explanations for each. Include an introduction and conclusion.",
    placeholders := ["title", "number"] },
  { id := "blog-opinion", name := "Opinion Piece", contentType := "blog",
    prompt := "Write an opinion piece about {topic}. Present a clear viewpoint with supporting arguments, examples, and a persuasive conclusion.",
    placeholders := ["topic"] },
  { id := "blog-news", name := "News Article", contentType := "blog",
    prompt := "Write a news-style article about {topic}. Include key facts, quotes, context, and maintain an objective tone throughout.",
    placeholders := ["topic"] },
  { id := "marketing-email", name := "Email Campaign", contentType := "marketing",
    prompt := "Write a compelling marketing email for {product/service} targeting {audience}. Include an attention-grabbing subject line, engaging body copy, clear benefits, and a strong call-to-action.",
    placeholders := ["product/service", "audience"] },
  { id := "marketing-landing", name := "Landing Page Copy", contentType := "marketing",
    prompt := "Create landing page copy for {product/service}. Include a compelling headline, subheadline, key benefits, features, social proof section, and multiple CTAs. Focus on conversion optimization.",
    placeholders := ["product/service"] },
  { id := "marketing-product", name := "Product Description", contentType := "marketing",
    prompt := "Write a compelling product description for {product}. Highlight key features, benefits, specifications, and include persuasive language that encourages purchase.",
    placeholders := ["product"] },
  { id := "marketing-ad", name := "Ad Copy", contentType := "marketing",
    prompt := "Create short, punchy ad copy for {product/service} targeting {audience}. Write 3 variations with different angles, each under 100 words, with compelling headlines and clear CTAs.",
    placeholders := ["product/service", "audience"] },
  { id := "social-announcement", name := "Product Launch", contentType := "social-media",
    prompt := "Create an exciting product launch announcement for {product}. Write 3 variations suitable for different platforms (Twitter, LinkedIn, Instagram). Include relevant hashtags and emojis.",
    placeholders := ["product"] },
  { id := "social-engagement", name := "Engagement Post", contentType := "social-media",
    prompt := "Create engaging social media posts about {topic} that encourage audience interaction. Include questions, polls ideas, or conversation starters. Write for {platform}.",
    placeholders := ["topic", "platform"] },
  { id := "social-educational", name := "Educational Content", contentType := "social-media",
    prompt := "Create educational social media content about {topic}. Write bite-sized tips, facts, or insights in an engaging format. Suitable for carousel posts or thread format.",
    placeholders := ["topic"] },
  { id := "social-story", name := "Story/Behind-the-Scenes", contentType := "social-media",
    prompt := "Write authentic behind-the-scenes or story content about {topic}. Make it personal, relatable, and engaging. Include suggestions for visual elements.",
    placeholders := ["topic"] },
  { id := "social-caption", name := "Instagram Caption", contentType := "social-media",
    prompt := "Write 3 different Instagram captions for a post about {topic}. Include one short and punchy, one storytelling-style, and one with a question. Add relevant hashtags for each.",
    placeholders := ["topic"] },
  { id := "social-thread", name := "Twitter/X Thread", contentType := "social-media",
    prompt := "Create a Twitter/X thread about {topic}. Write 5-7 tweets that flow together, starting with a hook and ending with a call-to-action. Keep each tweet under 280 characters.",
    placeholders := ["topic"] }
]

/-- `getTemplateById(id)`: `templates.find(t => t.id === id)`. -/
def getTemplateById (id : String) : Option Template :=
  templates.find? (fun t => t.id == id)

/-! ## Placeholder substitution in the generate route

`finalPrompt = finalPrompt.replace(`...`, value)` uses the JavaScript
string-pattern `replace`, which rewrites only the FIRST occurrence of the
pattern.  It is modelled character-exactly over `List Char`.  (JavaScript
additionally expands `$`-sequences occurring in the replacement value; that
expansion is not modelled, so theorems about substitution restrict supplied
values to ones without the characters that have special meaning: the open
brace and the dollar sign.) -/

/-- The first occurrence of `pat` in a list: returns the part strictly before
the match and the part strictly after it. -/
def firstOcc (pat : List Char) : List Char → Option (List Char × List Char)
  | [] => none
  | c :: rest =>
    if List.isPrefixOf pat (c :: rest) then
      some ([], (c :: rest).drop pat.length)
    else
      match firstOcc pat rest with
      | some (pre, post) => some (c :: pre, post)
      | none => none

/-- JavaScript `s.replace(pat, rep)` for a string pattern: replace the first
occurrence only; no occurrence leaves the string unchanged. -/
def replaceFirst (s pat rep : List Char) : List Char :=
  match firstOcc pat s with
  | none => s
  | some (pre, post) => pre ++ rep ++ post

/-- The pattern text for a placeholder: an open brace, the name, a close brace. -/
def patChars (p : String) : List Char :=
  '\x7b' :: (p.data ++ ['\x7d'])

/-- `inputs[placeholder] || ''` — a missing (or empty) value becomes the
empty string. -/
def inputsGet (inputs : List (String × String)) (p : String) : String :=
  (((inputs.find? (fun q => q.1 == p)).map (fun q => q.2)).getD "")

/-- The substitution loop of the generate route:
`template.placeholders.forEach(ph => finalPrompt = finalPrompt.replace(..., inputs[ph] || ''))`. -/
def substList (prompt : List Char) (placeholders : List String)
    (inputs : List (String × String)) : List Char :=
  placeholders.foldl (fun acc p => replaceFirst acc (patChars p) (inputsGet inputs p).data) prompt

/-! ## Title derivation and the generate route -/

/-- JavaScript `content.split('\n')` over the character list. -/
def splitNl : List Char → List (List Char)
  | [] => [[]]
  | c :: rest =>
    if c = '\n' then [] :: splitNl rest
    else
      match splitNl rest with
      | h :: t => (c :: h) :: t
      | [] => [[c]]

/-- `line.trim()` is falsy exactly when every character of the line is
whitespace; the filter `filter(line => line.trim())` keeps the non-blank
lines. -/
def isBlank (l : List Char) : Bool :=
  l.all Char.isWhitespace

/-- The regular expression `/^#+\s*/` applied by `replace`: strip a leading
run of heading markers together with the whitespace after it; a line not
starting with a heading marker is unchanged. -/
def stripHeading : List Char → List Char
  | '#' :: rest => (rest.dropWhile (fun c => c == '#')).dropWhile Char.isWhitespace
  | l => l

/-- Title extraction of the generate route:
`lines = generatedContent.split('\n').filter(line => line.trim())` and
`title = lines[0]?.replace(/^#+\s*/, '').substring(0, 100) || 'Generated Content'`. -/
def deriveTitle (content : String) : String :=
  match (splitNl content.data).filter (fun l => ¬ isBlank l) with
  | [] => "Generated Content"
  | l :: _ =>
    let t := (stripHeading l).take 100
    if t = [] then "Generated Content" else String.mk t

/-- The first non-blank line of a text, if any (used to state the
specification of title derivation). -/
def firstNonBlank (content : String) : Option (List Char) :=
  ((splitNl content.data).filter (fun l => ¬ isBlank l)).head?

/-- Observable outcome of one `POST /api/generate` request: HTTP status,
whether the external provider was invoked, and the tables left behind. -/
structure GenOutcome where
  status : Nat
  providerCalled : Bool
  users : List UserRow
  contents : List ContentRow
deriving DecidableEq

/-- `prisma.user.update({where: {id}, data: {attemptUsed: true}})` — an
UNCONDITIONAL update keyed on the user id. -/
def flipAttempt (uid : String) (users : List UserRow) : List UserRow :=
  users.map (fun u => if u.id = uid then { u with attemptUsed := true } else u)

/-- Tail of the generate route from the OpenAI call onwards: a thrown
provider error is caught by the route and mapped to 500; an empty completion
(`!generatedContent`) is 500; otherwise the content row is created and then
the attempt flag is flipped.  `newId`/`now` stand for the cuid and
`@default(now())` of the created row. -/
def callProvider (user : UserRow) (tName cType finalPrompt : String)
    (provider : Except Unit String)
    (users : List UserRow) (contents : List ContentRow) (newId : String) (now : Nat) :
    GenOutcome :=
  match provider with
  | .error _ => ⟨500, true, users, contents⟩
  | .ok generated =>
    if generated = "" then ⟨500, true, users, contents⟩
    else
      let row : ContentRow :=
        ⟨newId, deriveTitle generated, generated, cType, tName, finalPrompt, user.id, now⟩
      ⟨200, true, flipAttempt user.id users, row :: contents⟩

/-- `POST /api/generate`.  In source order: authentication
(`getCurrentUser`), the quota gate (`user.attemptUsed`), the API-key guard,
prompt resolution (template branch / custom prompt branch / 400), the
provider call, persistence.  `user?` is the resolved session user;
`apiKeyOk` is the environment check
`OPENAI_API_KEY` present and not the placeholder value; `templateId` and
`customPrompt` use `""` for an absent field (JavaScript falsiness). -/
def generatePOST (user? : Option UserRow) (apiKeyOk : Bool)
    (templateId : String) (inputs : List (String × String)) (customPrompt : String)
    (provider : Except Unit String)
    (users : List UserRow) (contents : List ContentRow) (newId : String) (now : Nat) :
    GenOutcome :=
  match user? with
  | none => ⟨401, false, users, contents⟩
  | some user =>
    if user.attemptUsed then ⟨403, false, users, contents⟩
    else if ¬ apiKeyOk then ⟨500, false, users, contents⟩
    else if templateId ≠ "" then
      match getTemplateById templateId with
      | none => ⟨404, false, users, contents⟩
      | some t =>
        callProvider user t.name t.contentType
          (String.mk (substList t.prompt.data t.placeholders inputs))
          provider users contents newId now
    else if customPrompt ≠ "" then
      callProvider user "Custom" "blog" customPrompt provider users contents newId now
    else ⟨400, false, users, contents⟩

/-! ## src/app/api/history/route.ts -/

/-- The `where` clause of the history listing: always `userId`, plus
`contentType` when the `type` query parameter is present (non-empty) and not
`'all'`. -/
def histPred (uid t : String) (c : ContentRow) : Bool :=
  c.userId == uid && (if t = "" ∨ t = "all" then true else c.contentType == t)

/-- `orderBy: { createdAt: 'desc' }` — newer rows first. -/
def newerRel (a b : ContentRow) : Prop :=
  b.createdAt ≤ a.createdAt

instance : DecidableRel newerRel := fun _ _ => Nat.decLe _ _

instance : IsTotal ContentRow newerRel :=
  ⟨fun a b => Or.symm (Nat.le_total a.createdAt b.createdAt)⟩

instance : IsTrans ContentRow newerRel :=
  ⟨fun _ _ _ hab hbc => Nat.le_trans hbc hab⟩

/-- The database sort for `orderBy: { createdAt: 'desc' }`. -/
def newestFirst (l : List ContentRow) : List ContentRow :=
  List.insertionSort newerRel l

/-- Result of `GET /api/history`: status plus the returned rows. -/
structure HistoryResult where
  status : Nat
  items : List ContentRow
deriving DecidableEq

/-- `GET /api/history?type=...`: authentication, then
`findMany({where, orderBy: {createdAt: 'desc'}, take: 50})`.
`typeParam = ""` models an absent `type` query parameter. -/
def historyGET (user? : Option UserRow) (typeParam : String) (db : List ContentRow) :
    HistoryResult :=
  match user? with
  | none => ⟨401, []⟩
  | some u => ⟨200, (newestFirst (db.filter (histPred u.id typeParam))).take 50⟩

/-- Result of `DELETE /api/history`: status plus the table left behind. -/
structure DeleteResult where
  status : Nat
  db : List ContentRow
deriving DecidableEq

/-- `DELETE /api/history?id=...`: authentication; missing id is 400; missing
row is 404; foreign owner is 403 with nothing changed; otherwise
`prisma.generatedContent.delete({where: {id}})` removes the row (the id is
the primary key). -/
def historyDELETE (user? : Option UserRow) (idParam : String) (db : List ContentRow) :
    DeleteResult :=
  match user? with
  | none => ⟨401, db⟩
  | some u =>
    if idParam = "" then ⟨400, db⟩
    else
      match db.find? (fun c => c.id == idParam) with
      | none => ⟨404, db⟩
      | some c =>
        if ¬ c.userId = u.id then ⟨403, db⟩
        else ⟨200, db.filter (fun x => ¬ x.id = idParam)⟩

/-! ## POST /api/auth/logout -/

/-- Server state seen by the logout route: the session table and the
`session_token` cookie of this client. -/
structure AuthState where
  sessions : List SessRow
  cookie : Option String
deriving DecidableEq

/-- Result of `POST /api/auth/logout`: status, the `success` flag of the JSON
body, and the state left behind. -/
structure LogoutResult where
  status : Nat
  success : Bool
  state : AuthState
deriving DecidableEq

/-- `POST /api/auth/logout`: if the cookie holds a (truthy) token, delete all
sessions with that token; always clear the cookie and answer
`200 {success: true}`. -/
def logoutPOST (st : AuthState) : LogoutResult :=
  let sessions :=
    match st.cookie with
    | some tok => if tok = "" then st.sessions else deleteSession tok st.sessions
    | none => st.sessions
  ⟨200, true, ⟨sessions, none⟩⟩

/-! ## Interleaving model of the generate-route quota section

Each `POST /api/generate` request performs, against the shared store, the
atomic database operations in this order (source order of the route):

1. read the user row and test `attemptUsed` (the quota gate);
2. `prisma.generatedContent.create` — insert the content row;
3. `prisma.user.update({where: {id}, data: {attemptUsed: true}})` — the
   unconditional flip.

Two concurrent requests of the same user are modelled as two copies of this
little program interleaved by a schedule; the store is reduced to the fields
the race touches: the attempt flag and the number of content rows of the
user. -/

/-- Shared store restricted to one user: the attempt flag and the number of
that user's `GeneratedContent` rows. -/
structure QState where
  attemptUsed : Bool
  rows : Nat
deriving DecidableEq

/-- Control state of one in-flight generate request. -/
inductive RPhase where
  /-- about to perform the quota read -/
  | checking
  /-- passed the quota gate, about to insert the content row -/
  | passed
  /-- inserted the row, about to flip the attempt flag -/
  | created
  /-- finished with the given HTTP status -/
  | done (status : Nat)
deriving DecidableEq

/-- One atomic step of a request against the shared store. -/
def reqStep (s : QState) : RPhase → QState × RPhase
  | .checking => if s.attemptUsed then (s, .done 403) else (s, .passed)
  | .passed => ({ s with rows := s.rows + 1 }, .created)
  | .created => ({ s with attemptUsed := true }, .done 200)
  | .done st => (s, .done st)

/-- Run two requests under a schedule: `true` steps the first request,
`false` the second. -/
def run2 : List Bool → QState × RPhase × RPhase → QState × RPhase × RPhase
  | [], st => st
  | b :: rest, (s, r1, r2) =>
    if b then
      let (s', r1') := reqStep s r1
      run2 rest (s', r1', r2)
    else
      let (s', r2') := reqStep s r2
      run2 rest (s', r1, r2')

/-! ## Registration and login

Modelled from the spec: the `POST /auth/register` and `POST /auth/login`
route handlers are not under `src/` (only `src/app/lib/auth.ts` and the
client form that calls them are).  Their behaviour follows the spec:
registration fails with `DuplicateEmail` (409) when the email exists and
otherwise creates the user with the bcrypt password hash and
`attemptUsed = false`; login looks up the email and fails with
`InvalidCredentials` on unknown email or hash mismatch, both cases
returning the same value. -/

/-- Outcome of a login attempt; unknown email and wrong password produce the
same `invalidCredentials` value. -/
inductive LoginOutcome where
  | ok (u : UserRow)
  | invalidCredentials
deriving DecidableEq

/-- Modelled from the spec: `POST /auth/register` — duplicate email is
rejected with 409, otherwise the user row is created with the salted hash
and a fresh attempt flag.  `salt` is the bcrypt salt, `uid` the cuid. -/
def register (db : List UserRow) (email pw : String) (salt : Nat) (uid : String) :
    Except Nat (UserRow × List UserRow) :=
  if db.any (fun u => u.email == email) then .error 409
  else
    let u : UserRow := ⟨uid, email, hashPassword salt pw, false⟩
    .ok (u, u :: db)

/-- Modelled from the spec: `POST /auth/login` — look up the email, verify
the password against the stored digest with `verifyPassword`. -/
def login (db : List UserRow) (email pw : String) : LoginOutcome :=
  match db.find? (fun u => u.email == email) with
  | none => .invalidCredentials
  | some u => if verifyPassword pw u.password then .ok u else .invalidCredentials

/-! ## Specification-side view of placeholder substitution

The spec says every named placeholder of the template is replaced by the
caller-supplied value (empty string when missing).  `chunksOf` decomposes a
template prompt into the literal chunks around its placeholder occurrences,
in order, requiring every chunk to be free of open braces — this holds for
the whole catalog.  `joinChunks` reassembles the chunks with the values in
the gaps: the fully substituted prompt. -/

/-- No open brace occurs in the list. -/
def braceFree (s : List Char) : Bool :=
  s.all (fun c => ¬ c = '\x7b')

/-- A supplied value is plain when it contains neither an open brace (which
could be mistaken for a placeholder) nor a dollar sign (special to the
JavaScript `replace` replacement string). -/
def plainVal (s : String) : Bool :=
  s.data.all (fun c => ¬ c = '\x7b' ∧ ¬ c = '$')

/-- Decompose a prompt into the brace-free chunks around the placeholder
occurrences, in placeholder order. -/
def chunksOf : List String → List Char → Option (List (List Char))
  | [], prompt => if braceFree prompt then some [prompt] else none
  | p :: rest, prompt =>
    match firstOcc (patChars p) prompt with
    | none => none
    | some (pre, post) =>
      if braceFree pre then (chunksOf rest post).map (fun cs => pre :: cs) else none

/-- Reassemble chunks with the substituted values in the gaps. -/
def joinChunks : List (List Char) → List (List Char) → List Char
  | [], _ => []
  | c :: _, [] => c
  | c :: cs, v :: vs => c ++ v ++ joinChunks cs vs

/-! # Theorems -/

/-- Claim C2: for every user with `attemptUsed = true` holding a valid
session, the generate operation answers 403 (QuotaExhausted) without
invoking the external provider and without touching any table — the quota
gate sits strictly before the provider call, whatever the request carries
and whatever the provider would have answered. -/
theorem generate_quota_exhausted_first (user : UserRow) (h : user.attemptUsed = true)
    (apiKeyOk : Bool) (templateId : String) (inputs : List (String × String))
    (customPrompt : String) (provider : Except Unit String)
    (users : List UserRow) (contents : List ContentRow) (newId : String) (now : Nat) :
    generatePOST (some user) apiKeyOk templateId inputs customPrompt provider
      users contents newId now = ⟨403, false, users, contents⟩ := by
  simp [generatePOST, h]

/-- Claim C2 witness: a concrete quota-exhausted user is rejected with 403,
no provider call, tables unchanged. -/
theorem generate_quota_exhausted_first_witness :
    (UserRow.mk "u1" "a@b.c" ⟨10, "pw"⟩ true).attemptUsed = true ∧
    generatePOST (some (UserRow.mk "u1" "a@b.c" ⟨10, "pw"⟩ true)) true "" [] "write"
      (.ok "out") [] [] "c1" 0 = ⟨403, false, [], []⟩ :=
  ⟨rfl, generate_quota_exhausted_first (UserRow.mk "u1" "a@b.c" ⟨10, "pw"⟩ true) rfl
    true "" [] "write" (.ok "out") [] [] "c1" 0⟩

/-- Claim C9: logout is idempotent — running the logout route on the state a
first logout left behind gives the very same response (200, success true)
and the very same state, whether or not any session existed. -/
theorem logout_idempotent (st : AuthState) :
    logoutPOST ((logoutPOST st).state) = logoutPOST st := rfl

/-- Claim C1 (code bug witness): the generate route performs the content
insert and the attempt flip as two separate writes and the flip is an
unconditional update, so under the interleaving in which both requests pass
the quota read before either writes (schedule: request 1 reads, request 2
reads, request 1 inserts, request 1 flips, request 2 inserts, request 2
flips), BOTH requests answer 200 and TWO content rows are created for the
one user — the claimed conditional flip with its no-op-means-403 semantics
is absent from the code. -/
theorem generate_quota_race :
    run2 [true, false, true, true, false, false] (⟨false, 0⟩, .checking, .checking)
      = (⟨true, 2⟩, .done 200, .done 200) := rfl

/-- Claim C10 counterexample: an authenticated request carrying neither a
template id nor a custom prompt does NOT always answer 400 — with the
OpenAI key unconfigured the route answers 500 (the key guard precedes the
validation branch), and for a quota-exhausted user it answers 403 (the
quota gate precedes it too).  No provider call and no mutation happen in
either case. -/
theorem generate_validation_cex :
    generatePOST (some (UserRow.mk "u1" "a@b.c" ⟨10, "pw"⟩ false)) false "" [] ""
      (.ok "text") [] [] "c1" 0 = ⟨500, false, [], []⟩ ∧
    generatePOST (some (UserRow.mk "u2" "b@b.c" ⟨10, "pw"⟩ true)) true "" [] ""
      (.ok "text") [] [] "c1" 0 = ⟨403, false, [], []⟩ :=
  ⟨rfl, rfl⟩

/-- Claim C10 (amended): for every authenticated user who still has the free
attempt, when the OpenAI key is configured, a generate request that supplies
neither a template id nor a custom prompt answers 400 before any provider
call and mutates nothing. -/
theorem generate_validation_no_prompt (user : UserRow) (h : user.attemptUsed = false)
    (inputs : List (String × String)) (provider : Except Unit String)
    (users : List UserRow) (contents : List ContentRow) (newId : String) (now : Nat) :
    generatePOST (some user) true "" inputs "" provider users contents newId now
      = ⟨400, false, users, contents⟩ := by
  simp [generatePOST, h]

/-- Claim C10 witness: concrete instance of the amended validation property. -/
theorem generate_validation_no_prompt_witness :
    (UserRow.mk "u1" "a@b.c" ⟨10, "pw"⟩ false).attemptUsed = false ∧
    generatePOST (some (UserRow.mk "u1" "a@b.c" ⟨10, "pw"⟩ false)) true "" [] ""
      (.ok "text") [] [] "c1" 0 = ⟨400, false, [], []⟩ :=
  ⟨rfl, generate_validation_no_prompt (UserRow.mk "u1" "a@b.c" ⟨10, "pw"⟩ false) rfl
    [] (.ok "text") [] [] "c1" 0⟩

/-- Claim C8: the history delete answers 404 when no row carries the id,
answers 403 and leaves the table untouched when the row belongs to another
user, and removes exactly the rows with that id (the id is the primary key)
when the owner matches — in particular the found row is gone afterwards. -/
theorem history_delete_ok (u : UserRow) (idp : String) (db : List ContentRow)
    (hne : idp ≠ "") :
    (db.find? (fun r => r.id == idp) = none →
      historyDELETE (some u) idp db = ⟨404, db⟩) ∧
    (∀ c, db.find? (fun r => r.id == idp) = some c → ¬ c.userId = u.id →
      historyDELETE (some u) idp db = ⟨403, db⟩) ∧
    (∀ c, db.find? (fun r => r.id == idp) = some c → c.userId = u.id →
      historyDELETE (some u) idp db = ⟨200, db.filter (fun x => ¬ x.id = idp)⟩ ∧
        c ∉ (historyDELETE (some u) idp db).db) := by
  refine ⟨?_, ?_, ?_⟩
  · intro hf
    simp [historyDELETE, hne, hf]
  · intro c hf hown
    simp [historyDELETE, hne, hf, hown]
  · intro c hf hown
    have hcid : c.id = idp := by
      have := List.find?_some hf
      simpa using this
    refine ⟨by simp [historyDELETE, hne, hf, hown], ?_⟩
    simp only [historyDELETE, hne, hf, hown]
    intro hc
    simp at hc
    exact hc.2 hcid

/-- Claim C8 witness: concrete instances of all three delete branches. -/
theorem history_delete_ok_witness :
    ("c9" : String) ≠ "" ∧
    (([⟨"c9", "t", "x", "blog", "n", "p", "owner", 3⟩] : List ContentRow).find?
        (fun r => r.id == "c9") = some ⟨"c9", "t", "x", "blog", "n", "p", "owner", 3⟩ ∧
      ¬ (⟨"c9", "t", "x", "blog", "n", "p", "owner", 3⟩ : ContentRow).userId = "u1" ∧
      historyDELETE (some (UserRow.mk "u1" "a@b.c" ⟨10, "pw"⟩ false)) "c9"
          [⟨"c9", "t", "x", "blog", "n", "p", "owner", 3⟩]
        = ⟨403, [⟨"c9", "t", "x", "blog", "n", "p", "owner", 3⟩]⟩) :=
  ⟨by decide,
    by decide,
    by decide,
    ((history_delete_ok (UserRow.mk "u1" "a@b.c" ⟨10, "pw"⟩ false) "c9"
        [⟨"c9", "t", "x", "blog", "n", "p", "owner", 3⟩] (by decide)).2.1
      ⟨"c9", "t", "x", "blog", "n", "p", "owner", 3⟩ (by decide) (by decide))⟩

/-- Claim C3: a session stored by `createSession` expires at exactly
`createdAt + 7 days`: resolving the token at any instant up to and
including `expiresAt` yields the associated user and changes nothing;
resolving strictly after `expiresAt` yields none and deletes exactly the
session row; resolving a token that matches no session yields none and
changes nothing.  (`trial` is the clock value at resolution time; the token
and the row id are fresh at creation, and the user row backs the foreign
key.) -/
theorem session_lifecycle (now trial : Nat) (userId token sid : String)
    (db : List SessRow) (users : List UserRow) (user : UserRow)
    (_hfresh : ∀ s ∈ db, s.token ≠ token)
    (hid : ∀ s ∈ db, s.id ≠ sid)
    (huser : users.find? (fun v => v.id == userId) = some user) :
    (trial ≤ now + SESSION_DURATION →
      getSessionUser trial token (createSession now userId token sid db).2 users
        = (some user, (createSession now userId token sid db).2)) ∧
    (now + SESSION_DURATION < trial →
      getSessionUser trial token (createSession now userId token sid db).2 users
        = (none, db)) ∧
    (∀ tok2, (∀ s ∈ (createSession now userId token sid db).2, s.token ≠ tok2) →
      getSessionUser trial tok2 (createSession now userId token sid db).2 users
        = (none, (createSession now userId token sid db).2)) := by
  refine ⟨?_, ?_, ?_⟩
  · intro hle
    simp [getSessionUser, createSession, huser, Nat.not_lt.mpr hle]
  · intro hlt
    have hdel : db.filter (fun x => ¬ x.id = sid) = db :=
      List.filter_eq_self.mpr (fun a ha => by simpa using hid a ha)
    simp [getSessionUser, createSession, hlt, hdel]
    exact fun a ha => hid a ha
  · intro tok2 hall
    have hnone :
        ((createSession now userId token sid db).2).find? (fun s => s.token == tok2)
          = none :=
      List.find?_eq_none.mpr (fun s hs => by simpa using hall s hs)
    simp [getSessionUser, hnone]

/-- Claim C3 witness: a concrete session resolved at the expiry instant, one
millisecond after it, and with an unknown token. -/
theorem session_lifecycle_witness :
    (∀ s ∈ ([] : List SessRow), s.token ≠ "tok") ∧
    (∀ s ∈ ([] : List SessRow), s.id ≠ "s1") ∧
    ([UserRow.mk "u1" "a@b.c" ⟨10, "pw"⟩ false].find? (fun v => v.id == "u1")
      = some (UserRow.mk "u1" "a@b.c" ⟨10, "pw"⟩ false)) ∧
    ((5 + SESSION_DURATION ≤ 5 + SESSION_DURATION →
      getSessionUser (5 + SESSION_DURATION) "tok"
          (createSession 5 "u1" "tok" "s1" []).2 [UserRow.mk "u1" "a@b.c" ⟨10, "pw"⟩ false]
        = (some (UserRow.mk "u1" "a@b.c" ⟨10, "pw"⟩ false),
            (createSession 5 "u1" "tok" "s1" []).2)) ∧
    (5 + SESSION_DURATION < 5 + SESSION_DURATION →
      getSessionUser (5 + SESSION_DURATION) "tok"
          (createSession 5 "u1" "tok" "s1" []).2 [UserRow.mk "u1" "a@b.c" ⟨10, "pw"⟩ false]
        = (none, [])) ∧
    (∀ tok2, (∀ s ∈ (createSession 5 "u1" "tok" "s1" []).2, s.token ≠ tok2) →
      getSessionUser (5 + SESSION_DURATION) tok2
          (createSession 5 "u1" "tok" "s1" []).2 [UserRow.mk "u1" "a@b.c" ⟨10, "pw"⟩ false]
        = (none, (createSession 5 "u1" "tok" "s1" []).2))) :=
  ⟨by simp, by simp, by decide,
    session_lifecycle 5 (5 + SESSION_DURATION) "u1" "tok" "s1" []
      [UserRow.mk "u1" "a@b.c" ⟨10, "pw"⟩ false]
      (UserRow.mk "u1" "a@b.c" ⟨10, "pw"⟩ false)
      (by simp) (by simp) (by decide)⟩

/-- Claim C5: registering and then logging in with the same credentials
succeeds — in particular `verifyPassword p (hashPassword s p)` holds for
every password — while logging in with a wrong password gives
`invalidCredentials`, the very same value an unknown email gives
(indistinguishable to the caller). -/
theorem register_login_roundtrip (db : List UserRow) (email pw : String) (salt : Nat)
    (uid : String) (hfresh : ∀ u ∈ db, u.email ≠ email) :
    (∀ (p : String) (s : Nat), verifyPassword p (hashPassword s p) = true) ∧
    register db email pw salt uid
      = .ok (⟨uid, email, hashPassword salt pw, false⟩,
          ⟨uid, email, hashPassword salt pw, false⟩ :: db) ∧
    login (⟨uid, email, hashPassword salt pw, false⟩ :: db) email pw
      = .ok ⟨uid, email, hashPassword salt pw, false⟩ ∧
    (∀ pw2, pw2 ≠ pw →
      login (⟨uid, email, hashPassword salt pw, false⟩ :: db) email pw2
        = .invalidCredentials) ∧
    (∀ e2, (∀ u ∈ (⟨uid, email, hashPassword salt pw, false⟩ :: db), u.email ≠ e2) →
      login (⟨uid, email, hashPassword salt pw, false⟩ :: db) e2 pw
        = .invalidCredentials) := by
  refine ⟨?_, ?_, ?_, ?_, ?_⟩
  · intro p s
    simp [verifyPassword, hashPassword]
  · have hany : db.any (fun u => u.email == email) = false := by
      simp only [List.any_eq_false]
      intro u hu
      simpa using hfresh u hu
    simp [register, hany]
  · simp [login, verifyPassword, hashPassword]
  · intro pw2 hne
    simp [login, verifyPassword, hashPassword, hne]
  · intro e2 hall
    have hnone :
        (⟨uid, email, hashPassword salt pw, false⟩ :: db).find? (fun u => u.email == e2)
          = none :=
      List.find?_eq_none.mpr (fun u hu => by simpa using hall u hu)
    simp [login, hnone]

/-- Claim C5 witness: a concrete register-then-login round trip with a wrong
password and an unknown email both answered by the same value. -/
theorem register_login_roundtrip_witness :
    (∀ u ∈ ([] : List UserRow), u.email ≠ "a@b.c") ∧
    (verifyPassword "pw" (hashPassword 10 "pw") = true ∧
      register [] "a@b.c" "pw" 10 "u1"
        = .ok (⟨"u1", "a@b.c", hashPassword 10 "pw", false⟩,
            [⟨"u1", "a@b.c", hashPassword 10 "pw", false⟩]) ∧
      login [⟨"u1", "a@b.c", hashPassword 10 "pw", false⟩] "a@b.c" "pw"
        = .ok ⟨"u1", "a@b.c", hashPassword 10 "pw", false⟩ ∧
      login [⟨"u1", "a@b.c", hashPassword 10 "pw", false⟩] "a@b.c" "wrong"
        = .invalidCredentials ∧
      login [⟨"u1", "a@b.c", hashPassword 10 "pw", false⟩] "z@b.c" "pw"
        = .invalidCredentials) :=
  ⟨by simp,
    by
      obtain ⟨h1, h2, h3, h4, h5⟩ :=
        register_login_roundtrip [] "a@b.c" "pw" 10 "u1" (by simp)
      exact ⟨h1 "pw" 10, h2, h3, h4 "wrong" (by decide), h5 "z@b.c" (by decide)⟩⟩

/-- The title the route stores is never the empty string: the
`|| 'Generated Content'` fallback catches both the no-non-blank-line case
and the stripped-to-nothing case. -/
theorem deriveTitle_ne (c : String) : deriveTitle c ≠ "" := by
  rw [deriveTitle]
  cases (splitNl c.data).filter (fun l => ¬ isBlank l) with
  | nil => decide
  | cons l rest =>
    dsimp only
    split
    · decide
    · next ht =>
      intro h
      apply ht
      simpa using congrArg String.data h

/-- When the generated text has no non-blank line at all, the route derives
the fallback title rather than failing. -/
theorem deriveTitle_blank (c : String) (h : firstNonBlank c = none) :
    deriveTitle c = "Generated Content" := by
  rw [firstNonBlank] at h
  rw [deriveTitle, List.head?_eq_none_iff.mp h]

/-- Claim C4 counterexample: provider output consisting only of blank lines
is NOT a hard failure — the route stores a content row with the fallback
title `Generated Content` and flips the attempt flag, answering 200. -/
theorem generate_blank_title_cex :
    generatePOST (some (UserRow.mk "u1" "a@b.c" ⟨10, "pw"⟩ false)) true "" [] "make text"
      (.ok "\n \n") [UserRow.mk "u1" "a@b.c" ⟨10, "pw"⟩ false] [] "c1" 5
      = ⟨200, true, [UserRow.mk "u1" "a@b.c" ⟨10, "pw"⟩ true],
          [ContentRow.mk "c1" "Generated Content" "\n \n" "blog" "Custom" "make text" "u1" 5]⟩ := by
  decide

/-- Claim C4 (amended): an EMPTY provider output fails with 500 and stores
nothing; any non-empty output — including one consisting only of blank
lines — is stored, with title the first non-blank line stripped of its
leading heading marker and truncated (`deriveTitle`), which is never empty:
where the spec-side derivation finds no non-blank line the fallback title
`Generated Content` is stored instead of failing. -/
theorem generate_title_handling (user : UserRow) (h : user.attemptUsed = false)
    (cp : String) (hcp : cp ≠ "") (inputs : List (String × String))
    (users : List UserRow) (contents : List ContentRow) (newId : String) (now : Nat) :
    (generatePOST (some user) true "" inputs cp (.ok "") users contents newId now
      = ⟨500, true, users, contents⟩) ∧
    (∀ c, c ≠ "" →
      generatePOST (some user) true "" inputs cp (.ok c) users contents newId now
        = ⟨200, true, flipAttempt user.id users,
            ⟨newId, deriveTitle c, c, "blog", "Custom", cp, user.id, now⟩ :: contents⟩) ∧
    (∀ c, deriveTitle c ≠ "") ∧
    (∀ c, firstNonBlank c = none → deriveTitle c = "Generated Content") := by
  refine ⟨?_, ?_, fun c => deriveTitle_ne c, fun c hc => deriveTitle_blank c hc⟩
  · simp [generatePOST, callProvider, h, hcp]
  · intro c hc
    simp [generatePOST, callProvider, h, hcp, hc]

/-- Claim C4 witness: concrete instances — empty output is a 500 with
nothing stored; a normal output is stored with its derived title. -/
theorem generate_title_handling_witness :
    (UserRow.mk "u1" "a@b.c" ⟨10, "pw"⟩ false).attemptUsed = false ∧
    ("write" : String) ≠ "" ∧
    (generatePOST (some (UserRow.mk "u1" "a@b.c" ⟨10, "pw"⟩ false)) true "" [] "write"
        (.ok "") [] [] "c1" 5 = ⟨500, true, [], []⟩ ∧
      (("# Hi\nbody" : String) ≠ "" →
        generatePOST (some (UserRow.mk "u1" "a@b.c" ⟨10, "pw"⟩ false)) true "" [] "write"
            (.ok "# Hi\nbody") [] [] "c1" 5
          = ⟨200, true, flipAttempt "u1" [],
              ⟨"c1", deriveTitle "# Hi\nbody", "# Hi\nbody", "blog", "Custom", "write",
                "u1", 5⟩ :: []⟩)) :=
  ⟨rfl, by decide,
    by
      obtain ⟨h1, h2, _, _⟩ :=
        generate_title_handling (UserRow.mk "u1" "a@b.c" ⟨10, "pw"⟩ false) rfl
          "write" (by decide) [] [] [] "c1" 5
      exact ⟨h1, h2 "# Hi\nbody"⟩⟩

/-- Everything the listing returns passed the `where` clause, at most 50
rows come back, and they are ordered newest-first. -/
theorem hist_core (uid t : String) (db : List ContentRow) :
    (∀ c ∈ (newestFirst (db.filter (histPred uid t))).take 50, histPred uid t c = true) ∧
    ((newestFirst (db.filter (histPred uid t))).take 50).length ≤ 50 ∧
    List.Sorted newerRel ((newestFirst (db.filter (histPred uid t))).take 50) := by
  refine ⟨?_, List.length_take_le _ _, ?_⟩
  · intro c hc
    have h1 : c ∈ newestFirst (db.filter (histPred uid t)) := List.mem_of_mem_take hc
    have h2 : c ∈ db.filter (histPred uid t) :=
      ((List.perm_insertionSort newerRel _).mem_iff).mp h1
    exact (List.mem_filter.mp h2).2
  · exact List.Pairwise.sublist (List.take_sublist _ _)
      (List.sorted_insertionSort newerRel _)

/-- Claim C7: the history listing for an authenticated user returns only
rows owned by that user, newest first, at most 50 of them even when more
exist; with a content-type filter (a value other than the `all` sentinel,
which the client uses for "no filter") only rows of that type come back. -/
theorem history_list_ok (u : UserRow) (t : String) (db : List ContentRow)
    (ht1 : t ≠ "") (ht2 : t ≠ "all") :
    ((historyGET (some u) "" db).status = 200 ∧
      (∀ c ∈ (historyGET (some u) "" db).items, c.userId = u.id) ∧
      (historyGET (some u) "" db).items.length ≤ 50 ∧
      List.Sorted newerRel (historyGET (some u) "" db).items) ∧
    ((historyGET (some u) t db).status = 200 ∧
      (∀ c ∈ (historyGET (some u) t db).items, c.userId = u.id ∧ c.contentType = t) ∧
      (historyGET (some u) t db).items.length ≤ 50 ∧
      List.Sorted newerRel (historyGET (some u) t db).items) := by
  obtain ⟨hm0, hl0, hs0⟩ := hist_core u.id "" db
  obtain ⟨hmt, hlt, hst⟩ := hist_core u.id t db
  refine ⟨⟨rfl, ?_, hl0, hs0⟩, ⟨rfl, ?_, hlt, hst⟩⟩
  · intro c hc
    have := hm0 c hc
    simp [histPred] at this
    exact this
  · intro c hc
    have := hmt c hc
    simp [histPred, ht1, ht2] at this
    exact this

/-- Claim C7 witness: a concrete table with 3 rows of two users and mixed
types, listed without and with the `blog` filter. -/
theorem history_list_ok_witness :
    ("blog" : String) ≠ "" ∧ ("blog" : String) ≠ "all" ∧
    (((historyGET (some (UserRow.mk "u1" "a@b.c" ⟨10, "pw"⟩ false)) ""
          [⟨"c1", "t1", "x", "blog", "n", "p", "u1", 1⟩,
           ⟨"c2", "t2", "x", "marketing", "n", "p", "u1", 9⟩,
           ⟨"c3", "t3", "x", "blog", "n", "p", "u2", 5⟩]).status = 200 ∧
      (∀ c ∈ (historyGET (some (UserRow.mk "u1" "a@b.c" ⟨10, "pw"⟩ false)) ""
          [⟨"c1", "t1", "x", "blog", "n", "p", "u1", 1⟩,
           ⟨"c2", "t2", "x", "marketing", "n", "p", "u1", 9⟩,
           ⟨"c3", "t3", "x", "blog", "n", "p", "u2", 5⟩]).items, c.userId = "u1") ∧
      (historyGET (some (UserRow.mk "u1" "a@b.c" ⟨10, "pw"⟩ false)) ""
          [⟨"c1", "t1", "x", "blog", "n", "p", "u1", 1⟩,
           ⟨"c2", "t2", "x", "marketing", "n", "p", "u1", 9⟩,
           ⟨"c3", "t3", "x", "blog", "n", "p", "u2", 5⟩]).items.length ≤ 50 ∧
      List.Sorted newerRel (historyGET (some (UserRow.mk "u1" "a@b.c" ⟨10, "pw"⟩ false)) ""
          [⟨"c1", "t1", "x", "blog", "n", "p", "u1", 1⟩,
           ⟨"c2", "t2", "x", "marketing", "n", "p", "u1", 9⟩,
           ⟨"c3", "t3", "x", "blog", "n", "p", "u2", 5⟩]).items) ∧
     ((historyGET (some (UserRow.mk "u1" "a@b.c" ⟨10, "pw"⟩ false)) "blog"
          [⟨"c1", "t1", "x", "blog", "n", "p", "u1", 1⟩,
           ⟨"c2", "t2", "x", "marketing", "n", "p", "u1", 9⟩,
           ⟨"c3", "t3", "x", "blog", "n", "p", "u2", 5⟩]).status = 200 ∧
      (∀ c ∈ (historyGET (some (UserRow.mk "u1" "a@b.c" ⟨10, "pw"⟩ false)) "blog"
          [⟨"c1", "t1", "x", "blog", "n", "p", "u1", 1⟩,
           ⟨"c2", "t2", "x", "marketing", "n", "p", "u1", 9⟩,
           ⟨"c3", "t3", "x", "blog", "n", "p", "u2", 5⟩]).items,
        c.userId = "u1" ∧ c.contentType = "blog") ∧
      (historyGET (some (UserRow.mk "u1" "a@b.c" ⟨10, "pw"⟩ false)) "blog"
          [⟨"c1", "t1", "x", "blog", "n", "p", "u1", 1⟩,
           ⟨"c2", "t2", "x", "marketing", "n", "p", "u1", 9⟩,
           ⟨"c3", "t3", "x", "blog", "n", "p", "u2", 5⟩]).items.length ≤ 50 ∧
      List.Sorted newerRel (historyGET (some (UserRow.mk "u1" "a@b.c" ⟨10, "pw"⟩ false)) "blog"
          [⟨"c1", "t1", "x", "blog", "n", "p", "u1", 1⟩,
           ⟨"c2", "t2", "x", "marketing", "n", "p", "u1", 9⟩,
           ⟨"c3", "t3", "x", "blog", "n", "p", "u2", 5⟩]).items)) :=
  ⟨by decide, by decide,
    history_list_ok (UserRow.mk "u1" "a@b.c" ⟨10, "pw"⟩ false) "blog"
      [⟨"c1", "t1", "x", "blog", "n", "p", "u1", 1⟩,
       ⟨"c2", "t2", "x", "marketing", "n", "p", "u1", 9⟩,
       ⟨"c3", "t3", "x", "blog", "n", "p", "u2", 5⟩] (by decide) (by decide)⟩

/-- A list is a Boolean prefix of itself followed by anything. -/
theorem isPrefixOf_self_append (pa post : List Char) :
    List.isPrefixOf pa (pa ++ post) = true := by
  simp [List.isPrefixOf_iff_prefix]

/-- Unfolding equation of `firstOcc` on a cons cell. -/
theorem firstOcc_cons (pa : List Char) (c : Char) (rest : List Char) :
    firstOcc pa (c :: rest)
      = if List.isPrefixOf pa (c :: rest) then
          some ([], (c :: rest).drop pa.length)
        else
          match firstOcc pa rest with
          | some (pre, post) => some (c :: pre, post)
          | none => none := rfl

/-- `firstOcc` finds a nonempty pattern sitting at the very front. -/
theorem firstOcc_self (a : Char) (as post : List Char) :
    firstOcc (a :: as) ((a :: as) ++ post) = some ([], post) := by
  have h1 : List.isPrefixOf (a :: as) ((a :: as) ++ post) = true :=
    isPrefixOf_self_append _ _
  have h2 : ((a :: as) ++ post).drop (a :: as).length = post := List.drop_left _ _
  simp only [List.cons_append] at h1 h2 ⊢
  rw [firstOcc_cons, if_pos h1, h2]

/-- A placeholder pattern (which starts with an open brace) is first found
right after any brace-free prefix. -/
theorem firstOcc_append_of_braceFree (p : String) (pre post : List Char)
    (h : braceFree pre = true) :
    firstOcc (patChars p) (pre ++ (patChars p ++ post)) = some (pre, post) := by
  induction pre with
  | nil =>
    simpa [patChars] using firstOcc_self '\x7b' (p.data ++ ['\x7d']) post
  | cons c cs ih =>
    have h2 : (decide (¬ c = '\x7b') && braceFree cs) = true := h
    obtain ⟨hne, hcs⟩ : (¬ c = '\x7b') ∧ braceFree cs = true := by simpa using h2
    have hc : (('\x7b' : Char) == c) = false :=
      beq_eq_false_iff_ne.mpr (fun hh => hne hh.symm)
    have hpref : List.isPrefixOf (patChars p) (c :: (cs ++ (patChars p ++ post)))
        = false := by
      simp [patChars, List.isPrefixOf_cons₂, hc]
    show firstOcc (patChars p) (c :: (cs ++ (patChars p ++ post))) = some (c :: cs, post)
    rw [firstOcc_cons, if_neg (by simp [hpref]), ih hcs]

/-- What `firstOcc` returns really decomposes the searched list. -/
theorem firstOcc_sound (pa : List Char) :
    ∀ (s pre post : List Char), firstOcc pa s = some (pre, post) →
      s = pre ++ pa ++ post := by
  intro s
  induction s with
  | nil => intro pre post h; simp [firstOcc] at h
  | cons c rest ih =>
    intro pre post h
    rw [firstOcc_cons] at h
    by_cases hp : List.isPrefixOf pa (c :: rest) = true
    · rw [if_pos hp] at h
      obtain ⟨t, ht⟩ := List.isPrefixOf_iff_prefix.mp hp
      have hdrop : (c :: rest).drop pa.length = t := by
        rw [← ht]; exact List.drop_left _ _
      rw [hdrop] at h
      simp only [Option.some.injEq, Prod.mk.injEq] at h
      obtain ⟨h1, h2⟩ := h
      subst h1; subst h2
      simpa using ht.symm
    · rw [if_neg hp] at h
      cases hr : firstOcc pa rest with
      | none => rw [hr] at h; simp at h
      | some pr =>
        obtain ⟨pre2, post2⟩ := pr
        rw [hr] at h
        simp only [Option.some.injEq, Prod.mk.injEq] at h
        obtain ⟨h1, h2⟩ := h
        subst h1; subst h2
        rw [ih pre2 post2 hr]
        simp

/-- A plain value contains no open brace. -/
theorem braceFree_of_plainVal (s : String) (h : plainVal s = true) :
    braceFree s.data = true := by
  rw [plainVal] at h
  rw [braceFree]
  rw [List.all_eq_true] at h ⊢
  intro x hx
  exact decide_eq_true (of_decide_eq_true (h x hx)).1

/-- The value the route substitutes (found value or empty string) is
brace-free when all supplied values are plain. -/
theorem inputsGet_braceFree (inputs : List (String × String)) (p : String)
    (hv : ∀ q ∈ inputs, plainVal q.2 = true) :
    braceFree (inputsGet inputs p).data = true := by
  rw [inputsGet]
  cases hf : inputs.find? (fun q => q.1 == p) with
  | none => simp [hf]; decide
  | some q =>
    simp only [hf, Option.map_some', Option.getD_some]
    exact braceFree_of_plainVal _ (hv q (List.mem_of_find?_eq_some hf))

/-- `braceFree` distributes over append. -/
theorem braceFree_append (a b : List Char) :
    braceFree (a ++ b) = (braceFree a && braceFree b) := by
  simp [braceFree, List.all_append]

/-- The substitution loop of the route, run on a chunk-decomposable prompt
with plain values, produces exactly the chunks interleaved with the values:
each placeholder occurrence is replaced by the caller value (empty string
when missing), generalised over an already-substituted brace-free prefix. -/
theorem substList_chunks (inputs : List (String × String))
    (hv : ∀ q ∈ inputs, plainVal q.2 = true) :
    ∀ (ps : List String) (pre prompt : List Char) (cs : List (List Char)),
      chunksOf ps prompt = some cs → braceFree pre = true →
      substList (pre ++ prompt) ps inputs
        = pre ++ joinChunks cs (ps.map (fun q => (inputsGet inputs q).data)) := by
  intro ps
  induction ps with
  | nil =>
    intro pre prompt cs hch hbf
    rw [chunksOf] at hch
    by_cases hbp : braceFree prompt = true
    · rw [if_pos hbp] at hch
      obtain rfl := Option.some.inj hch
      rfl
    · rw [if_neg hbp] at hch; exact absurd hch (by simp)
  | cons p rest ih =>
    intro pre prompt cs hch hbf
    rw [chunksOf] at hch
    cases hfo : firstOcc (patChars p) prompt with
    | none => rw [hfo] at hch; simp at hch
    | some pr =>
      obtain ⟨pre2, post⟩ := pr
      simp only [hfo] at hch
      by_cases hb2 : braceFree pre2 = true
      · rw [if_pos hb2] at hch
        cases hcr : chunksOf rest post with
        | none => rw [hcr] at hch; simp at hch
        | some cs2 =>
          rw [hcr] at hch
          simp only [Option.map_some', Option.some.injEq] at hch
          subst hch
          have hprompt : prompt = pre2 ++ patChars p ++ post :=
            firstOcc_sound _ _ _ _ hfo
          have hbv : braceFree (inputsGet inputs p).data = true :=
            inputsGet_braceFree inputs p hv
          have hsplit : pre ++ prompt = (pre ++ pre2) ++ (patChars p ++ post) := by
            rw [hprompt]; simp [List.append_assoc]
          have hocc : firstOcc (patChars p) (pre ++ prompt) = some (pre ++ pre2, post) := by
            rw [hsplit]
            exact firstOcc_append_of_braceFree p (pre ++ pre2) post
              (by simp [braceFree_append, hbf, hb2])
          have hrep : replaceFirst (pre ++ prompt) (patChars p) (inputsGet inputs p).data
              = (pre ++ pre2 ++ (inputsGet inputs p).data) ++ post := by
            rw [replaceFirst, hocc]
          have hbprev : braceFree (pre ++ pre2 ++ (inputsGet inputs p).data) = true := by
            simp [braceFree_append, hbf, hb2, hbv]
          rw [show substList (pre ++ prompt) (p :: rest) inputs
              = substList (replaceFirst (pre ++ prompt) (patChars p)
                  (inputsGet inputs p).data) rest inputs from rfl]
          rw [hrep, ih (pre ++ pre2 ++ (inputsGet inputs p).data) post cs2 hcr hbprev]
          rw [show joinChunks (pre2 :: cs2)
                ((p :: rest).map (fun q => (inputsGet inputs q).data))
              = pre2 ++ (inputsGet inputs p).data
                  ++ joinChunks cs2 (rest.map (fun q => (inputsGet inputs q).data))
              from rfl]
          simp [List.append_assoc]
      · rw [if_neg hb2] at hch; simp at hch

/-- Claim C6 counterexample: the route substitutes with the JavaScript
first-occurrence `replace`, one placeholder at a time over the evolving
string.  For the catalog template `marketing-email` (whose prompt splits
into the three brace-free chunks around its two placeholders), supplying
the value `X{audience}Y` for `product/service` injects a
placeholder-shaped occurrence that the later `audience` replacement
consumes, so the template OWN `{audience}` placeholder survives: the code
computes `... for XCTOsY targeting {audience}. ...` (third conjunct),
which DIFFERS from the output the claim describes — every named
placeholder substituted with the caller-supplied value, i.e. the chunks
interleaved with the values, `... for X{audience}Y targeting CTOs. ...`
(fourth conjunct). -/
theorem template_substitution_cex :
    getTemplateById "marketing-email"
      = some ⟨"marketing-email", "Email Campaign", "marketing",
          "Write a compelling marketing email for {product/service} targeting {audience}. Include an attention-grabbing subject line, engaging body copy, clear benefits, and a strong call-to-action.",
          ["product/service", "audience"]⟩ ∧
    chunksOf ["product/service", "audience"]
        "Write a compelling marketing email for {product/service} targeting {audience}. Include an attention-grabbing subject line, engaging body copy, clear benefits, and a strong call-to-action.".data
      = some ["Write a compelling marketing email for ".data, " targeting ".data,
          ". Include an attention-grabbing subject line, engaging body copy, clear benefits, and a strong call-to-action.".data] ∧
    substList "Write a compelling marketing email for {product/service} targeting {audience}. Include an attention-grabbing subject line, engaging body copy, clear benefits, and a strong call-to-action.".data
        ["product/service", "audience"]
        [("product/service", "X\x7baudience\x7dY"), ("audience", "CTOs")]
      = "Write a compelling marketing email for XCTOsY targeting \x7baudience\x7d. Include an attention-grabbing subject line, engaging body copy, clear benefits, and a strong call-to-action.".data ∧
    substList "Write a compelling marketing email for {product/service} targeting {audience}. Include an attention-grabbing subject line, engaging body copy, clear benefits, and a strong call-to-action.".data
        ["product/service", "audience"]
        [("product/service", "X\x7baudience\x7dY"), ("audience", "CTOs")]
      ≠ joinChunks ["Write a compelling marketing email for ".data, " targeting ".data,
          ". Include an attention-grabbing subject line, engaging body copy, clear benefits, and a strong call-to-action.".data]
          (["product/service", "audience"].map
            (fun q => (inputsGet
              [("product/service", "X\x7baudience\x7dY"), ("audience", "CTOs")] q).data)) :=
  ⟨by decide, by decide, by decide, by decide⟩

/-- Claim C6 (amended): every catalog template decomposes into brace-free
chunks around its placeholders (each placeholder occurs exactly once), and
on any such template the substitution loop — replacing the first occurrence
of each placeholder in order with the caller value, or the empty string
when the value is missing, never rejecting the request — yields exactly the
chunks interleaved with the values, provided the supplied values carry no
placeholder-special characters; moreover a generate request with a found
template is never rejected for missing input values: with the quota free,
the key configured and a non-empty completion it answers 200 whatever
`inputs` holds. -/
theorem template_substitution (t : Template) (cs : List (List Char))
    (inputs : List (String × String))
    (hch : chunksOf t.placeholders t.prompt.data = some cs)
    (hv : ∀ q ∈ inputs, plainVal q.2 = true) :
    (templates.all (fun tt => (chunksOf tt.placeholders tt.prompt.data).isSome) = true) ∧
    substList t.prompt.data t.placeholders inputs
      = joinChunks cs (t.placeholders.map (fun q => (inputsGet inputs q).data)) ∧
    (∀ (user : UserRow), user.attemptUsed = false →
      ∀ (tid : String) (tt : Template), getTemplateById tid = some tt →
      ∀ (inputs2 : List (String × String)) (c : String), c ≠ "" →
      ∀ (users : List UserRow) (contents : List ContentRow) (newId : String) (now : Nat),
        (generatePOST (some user) true tid inputs2 "" (.ok c) users contents
          newId now).status = 200) := by
  refine ⟨by decide, ?_, ?_⟩
  · have h := substList_chunks inputs hv t.placeholders [] t.prompt.data cs hch rfl
    simpa using h
  · intro user hu tid tt hT inputs2 c hc users contents newId now
    have htid : tid ≠ "" := by
      intro he
      have h0 : getTemplateById "" = none := rfl
      rw [he, h0] at hT
      exact Option.noConfusion hT
    simp [generatePOST, hu, htid, hT, callProvider, hc]

/-- Claim C6 witness: a concrete template and inputs, with the middle
conclusion fully evaluated. -/
theorem template_substitution_witness :
    chunksOf (["topic"] : List String) ("a {topic} b".data)
      = some ["a ".data, " b".data] ∧
    (∀ q ∈ [(("topic" : String), ("X" : String))], plainVal q.2 = true) ∧
    ((templates.all (fun tt => (chunksOf tt.placeholders tt.prompt.data).isSome) = true) ∧
      substList (Template.mk "tiny" "Tiny" "blog" "a {topic} b" ["topic"]).prompt.data
          (Template.mk "tiny" "Tiny" "blog" "a {topic} b" ["topic"]).placeholders
          [("topic", "X")]
        = joinChunks ["a ".data, " b".data]
            ((Template.mk "tiny" "Tiny" "blog" "a {topic} b" ["topic"]).placeholders.map
              (fun q => (inputsGet [("topic", "X")] q).data)) ∧
      (∀ (user : UserRow), user.attemptUsed = false →
        ∀ (tid : String) (tt : Template), getTemplateById tid = some tt →
        ∀ (inputs2 : List (String × String)) (c : String), c ≠ "" →
        ∀ (users : List UserRow) (contents : List ContentRow) (newId : String) (now : Nat),
          (generatePOST (some user) true tid inputs2 "" (.ok c) users contents
            newId now).status = 200)) :=
  ⟨by decide, by decide,
    template_substitution (Template.mk "tiny" "Tiny" "blog" "a {topic} b" ["topic"])
      ["a ".data, " b".data] [("topic", "X")] (by decide) (by decide)⟩
